import Mathlib

/-!
# Corporate Expense Tracker — verification of the expense lifecycle

Shallow embedding of the core of the `Corporate-Expense-Tracker` repository:

* `ExpenseContext` (src/unnamed/part_002): the expense collection and the
  service operations `loadExpenses`, `getExpenseById`, `createExpense`,
  `updateExpense`, `deleteExpense`, `submitExpense`, `approveExpense`,
  `rejectExpense`.  JavaScript `number` amounts are modelled as exact
  rationals (`ℚ`); `localStorage` is the explicit `List Expense` argument;
  the ambient session user is an explicit `Option User` argument; timestamps
  and generated ids are explicit `String` arguments.
* `AuthContext` (src/src/contexts/AuthContext.tsx): `checkRole`.
* `ExpenseDetail` (src/src/pages/expenses/ExpenseDetail.tsx): the guards
  `canEdit`, `canDelete`, `canReview`, `canSubmit` and the handlers that
  gate every mutation reachable from the detail page.
* `ExpenseForm` (src/src/pages/expenses/ExpenseForm.tsx): `validateForm`
  and the save path of `handleSubmit`.
* `ReportPage` (src/src/pages/reports/ReportPage.tsx): `totalAmount`,
  `expensesByCategory`.

A JavaScript `Partial<Expense>` update payload is embedded as a record of
`Option`s: `none` means the key is absent from the object literal, `some v`
means the key is present with value `v` (for fields that are themselves
optional in `Expense`, `some none` is a key present with value `undefined`,
which `{...old, ...patch}` does write over the old value).
-/

/-- `ExpenseStatus` from src/unnamed/part_002. -/
inductive ExpenseStatus
  | draft
  | submitted
  | approved
  | rejected
deriving DecidableEq, Repr, Inhabited

/-- `ExpenseCategory` from src/unnamed/part_002. -/
inductive ExpenseCategory
  | travel
  | meals
  | accommodation
  | equipment
  | office
  | other
deriving DecidableEq, Repr, Inhabited

/-- `UserRole` from src/src/contexts/AuthContext.tsx. -/
inductive UserRole
  | employee
  | manager
  | admin
deriving DecidableEq, Repr

/-- `User` from src/src/contexts/AuthContext.tsx (presentation-only fields
`department`/`avatar` omitted; no lifecycle rule reads them). -/
structure User where
  id : String
  name : String
  email : String
  role : UserRole
deriving DecidableEq, Repr

/-- `Expense` from src/unnamed/part_002.  `amount : number` is embedded as
an exact rational. -/
structure Expense where
  id : String
  title : String
  amount : ℚ
  date : String
  category : ExpenseCategory
  description : String
  status : ExpenseStatus
  receiptUrl : Option String
  submittedBy : String
  submittedByName : String
  submittedAt : String
  reviewedBy : Option String
  reviewedByName : Option String
  reviewedAt : Option String
  comments : Option String
deriving DecidableEq, Repr, Inhabited

/-- The argument of `createExpense`:
`Omit<Expense, 'id' | 'submittedBy' | 'submittedByName' | 'submittedAt'>` —
every `Expense` field except the four omitted ones, `status` and the
reviewer fields included. -/
structure ExpenseData where
  title : String
  amount : ℚ
  date : String
  category : ExpenseCategory
  description : String
  status : ExpenseStatus
  receiptUrl : Option String
  reviewedBy : Option String
  reviewedByName : Option String
  reviewedAt : Option String
  comments : Option String
deriving DecidableEq, Repr

/-- A `Partial<Expense>` object literal: `none` = key absent, `some v` =
key present with value `v` (so `some none` on an optional field is a key
present with value `undefined`). -/
structure ExpensePatch where
  id : Option String := none
  title : Option String := none
  amount : Option ℚ := none
  date : Option String := none
  category : Option ExpenseCategory := none
  description : Option String := none
  status : Option ExpenseStatus := none
  receiptUrl : Option (Option String) := none
  submittedBy : Option String := none
  submittedByName : Option String := none
  submittedAt : Option String := none
  reviewedBy : Option (Option String) := none
  reviewedByName : Option (Option String) := none
  reviewedAt : Option (Option String) := none
  comments : Option (Option String) := none
deriving DecidableEq, Repr

/-- The JavaScript spread merge `{ ...old, ...patch }`. -/
def applyPatch (old : Expense) (p : ExpensePatch) : Expense where
  id := p.id.getD old.id
  title := p.title.getD old.title
  amount := p.amount.getD old.amount
  date := p.date.getD old.date
  category := p.category.getD old.category
  description := p.description.getD old.description
  status := p.status.getD old.status
  receiptUrl := p.receiptUrl.getD old.receiptUrl
  submittedBy := p.submittedBy.getD old.submittedBy
  submittedByName := p.submittedByName.getD old.submittedByName
  submittedAt := p.submittedAt.getD old.submittedAt
  reviewedBy := p.reviewedBy.getD old.reviewedBy
  reviewedByName := p.reviewedByName.getD old.reviewedByName
  reviewedAt := p.reviewedAt.getD old.reviewedAt
  comments := p.comments.getD old.comments

/-- The errors the code throws (`throw new Error(...)` in
src/unnamed/part_002) plus the rejection-reason refusal that
`ExpenseDetail.handleReject` surfaces as a toast before calling the
service. -/
inductive AppError
  | expenseNotFound
  | userNotAuthenticated
  | rejectionReasonRequired
deriving DecidableEq, Repr

/-- `checkRole` from src/src/contexts/AuthContext.tsx:
`if (!user) return false; return roles.includes(user.role)`. -/
def checkRole (user : Option User) (roles : List UserRole) : Bool :=
  match user with
  | none => false
  | some u => roles.contains u.role

/-- `loadExpenses` from src/unnamed/part_002, as the pure view derivation:
`if (user?.role === 'employee') allExpenses = allExpenses.filter(e =>
e.submittedBy === user.id)`; managers and admins (and a null user) see the
full stored collection. -/
def loadExpenses (user : Option User) (allExpenses : List Expense) : List Expense :=
  match user with
  | some u =>
      if u.role = UserRole.employee then
        allExpenses.filter (fun e => e.submittedBy == u.id)
      else allExpenses
  | none => allExpenses

/-- `getExpenseById` from src/unnamed/part_002:
`expenses.find(e => e.id === id)` over the (role-filtered) `expenses`
state. -/
def getExpenseById (expenses : List Expense) (id : String) : Option Expense :=
  expenses.find? (fun e => e.id == id)

/-- `createExpense` from src/unnamed/part_002.  Throws when no user is
signed in; otherwise builds `{ ...expenseData, id, submittedBy: user.id,
submittedByName: user.name, submittedAt: now, status: 'draft' }` — the
stamps and `status: 'draft'` come after the spread, so they override
whatever `expenseData` carried — and appends it to the stored collection.
`newId` stands for `Date.now().toString()` and `now` for
`new Date().toISOString()`. -/
def createExpense (user : Option User) (expenseData : ExpenseData)
    (newId now : String) (allExpenses : List Expense) :
    Except AppError (Expense × List Expense) :=
  match user with
  | none => Except.error AppError.userNotAuthenticated
  | some u =>
      let newExpense : Expense :=
        { id := newId
          title := expenseData.title
          amount := expenseData.amount
          date := expenseData.date
          category := expenseData.category
          description := expenseData.description
          status := ExpenseStatus.draft
          receiptUrl := expenseData.receiptUrl
          submittedBy := u.id
          submittedByName := u.name
          submittedAt := now
          reviewedBy := expenseData.reviewedBy
          reviewedByName := expenseData.reviewedByName
          reviewedAt := expenseData.reviewedAt
          comments := expenseData.comments }
      Except.ok (newExpense, allExpenses ++ [newExpense])

/-- `updateExpense` from src/unnamed/part_002: find the record by id
(`findIndex`), throw `'Expense not found'` when absent, otherwise replace
it with `{ ...old, ...expenseData }` and return the updated record.  No
status, role, ownership or validation check of any kind is performed. -/
def updateExpense (allExpenses : List Expense) (id : String)
    (expenseData : ExpensePatch) : Except AppError (Expense × List Expense) :=
  match allExpenses.findIdx? (fun e => e.id == id) with
  | none => Except.error AppError.expenseNotFound
  | some i =>
      let updated := applyPatch (allExpenses.getD i default) expenseData
      Except.ok (updated, allExpenses.set i updated)

/-- `deleteExpense` from src/unnamed/part_002:
`allExpenses.filter(e => e.id !== id)` — unconditional removal, no status
or ownership check, no error even when the id is absent. -/
def deleteExpense (allExpenses : List Expense) (id : String) : List Expense :=
  allExpenses.filter (fun e => e.id != id)

/-- `submitExpense` from src/unnamed/part_002:
`updateExpense(id, { status: 'submitted' })`. -/
def submitExpense (allExpenses : List Expense) (id : String) :
    Except AppError (Expense × List Expense) :=
  updateExpense allExpenses id { status := some ExpenseStatus.submitted }

/-- `approveExpense` from src/unnamed/part_002: throws when signed out,
otherwise `updateExpense(id, { status: 'approved', reviewedBy: user.id,
reviewedByName: user.name, reviewedAt: now, comments })`.  The `comments`
key is always present in the literal (with value `undefined` when the
optional argument was not given), so it always overwrites.  No status or
role check. -/
def approveExpense (user : Option User) (now : String)
    (allExpenses : List Expense) (id : String) (comments : Option String) :
    Except AppError (Expense × List Expense) :=
  match user with
  | none => Except.error AppError.userNotAuthenticated
  | some u =>
      updateExpense allExpenses id
        { status := some ExpenseStatus.approved
          reviewedBy := some (some u.id)
          reviewedByName := some (some u.name)
          reviewedAt := some (some now)
          comments := some comments }

/-- `rejectExpense` from src/unnamed/part_002: throws when signed out,
otherwise `updateExpense(id, { status: 'rejected', reviewedBy: user.id,
reviewedByName: user.name, reviewedAt: now, comments })`.  The service
itself never inspects `comments`. -/
def rejectExpense (user : Option User) (now : String)
    (allExpenses : List Expense) (id : String) (comments : String) :
    Except AppError (Expense × List Expense) :=
  match user with
  | none => Except.error AppError.userNotAuthenticated
  | some u =>
      updateExpense allExpenses id
        { status := some ExpenseStatus.rejected
          reviewedBy := some (some u.id)
          reviewedByName := some (some u.name)
          reviewedAt := some (some now)
          comments := some (some comments) }

/-! ## Presentation-layer guards and handlers

The repository performs all role/status/validation gating in the
presentation layer (src/src/pages/expenses/ExpenseDetail.tsx and
ExpenseForm.tsx); the service functions above perform none. -/

/-- `canEdit` from ExpenseDetail.tsx: owner and status `draft` or
`rejected`; false when no user or no expense. -/
def canEdit (user : Option User) (expense : Option Expense) : Bool :=
  match user, expense with
  | some u, some e =>
      e.submittedBy == u.id &&
        (e.status == ExpenseStatus.draft || e.status == ExpenseStatus.rejected)
  | _, _ => false

/-- `canDelete` from ExpenseDetail.tsx: owner and status `draft`. -/
def canDelete (user : Option User) (expense : Option Expense) : Bool :=
  match user, expense with
  | some u, some e => e.submittedBy == u.id && e.status == ExpenseStatus.draft
  | _, _ => false

/-- `canReview` from ExpenseDetail.tsx:
`checkRole(['manager', 'admin']) && expense.status === 'submitted'`. -/
def canReview (user : Option User) (expense : Option Expense) : Bool :=
  match user, expense with
  | some _, some e =>
      checkRole user [UserRole.manager, UserRole.admin] &&
        e.status == ExpenseStatus.submitted
  | _, _ => false

/-- `canSubmit` from ExpenseDetail.tsx: owner and status `draft` (note:
not `rejected`). -/
def canSubmit (user : Option User) (expense : Option Expense) : Bool :=
  match user, expense with
  | some u, some e => e.submittedBy == u.id && e.status == ExpenseStatus.draft
  | _, _ => false

/-- The whitespace class of the JavaScript `trim()` used by the guards
(space, tab, newline, carriage return). -/
def isJsSpace (c : Char) : Bool :=
  c == ' ' || c == '\t' || c == '\n' || c == '\r'

/-- The JavaScript blank test `!s.trim()`: trimming leaves the empty
string exactly when every character is whitespace. -/
def isBlank (s : String) : Bool := s.data.all isJsSpace

/-- `handleReject` from ExpenseDetail.tsx: refuses an empty or
whitespace-only rejection comment (`if (!comments.trim()) ... return`)
without calling the service; otherwise delegates to `rejectExpense`. -/
def handleReject (user : Option User) (now : String) (allExpenses : List Expense)
    (id : String) (comments : String) : Except AppError (Expense × List Expense) :=
  if isBlank comments then Except.error AppError.rejectionReasonRequired
  else rejectExpense user now allExpenses id comments

/-- The submit action of the detail page: the button is rendered only when
`canSubmit` holds (`none` = action not offered), and its click handler
calls `submitExpense(id)`. -/
def detailSubmit (user : Option User) (allExpenses : List Expense) (e : Expense) :
    Option (Except AppError (Expense × List Expense)) :=
  if canSubmit user (some e) then some (submitExpense allExpenses e.id) else none

/-- The delete action of the detail page: offered only when `canDelete`
holds; its handler calls `deleteExpense(id)`. -/
def detailDelete (user : Option User) (allExpenses : List Expense) (e : Expense) :
    Option (List Expense) :=
  if canDelete user (some e) then some (deleteExpense allExpenses e.id) else none

/-- The approve action of the detail page: the review panel is rendered
only when `canReview` holds; `handleApprove` calls
`approveExpense(id, comments)` with the textarea string. -/
def detailApprove (user : Option User) (now : String) (allExpenses : List Expense)
    (e : Expense) (comments : String) :
    Option (Except AppError (Expense × List Expense)) :=
  if canReview user (some e) then
    some (approveExpense user now allExpenses e.id (some comments))
  else none

/-- The reject action of the detail page: the review panel is rendered
only when `canReview` holds; the click handler is `handleReject`. -/
def detailReject (user : Option User) (now : String) (allExpenses : List Expense)
    (e : Expense) (comments : String) :
    Option (Except AppError (Expense × List Expense)) :=
  if canReview user (some e) then some (handleReject user now allExpenses e.id comments)
  else none

/-- The form state of ExpenseForm.tsx.  The amount input is a string that
the source parses with `Number(...)`/`parseFloat(...)`; it is embedded
already parsed, `none` standing for an empty or non-numeric input
(`!amount || isNaN(Number(amount))`). -/
structure FormState where
  title : String
  amount : Option ℚ
  date : String
  category : ExpenseCategory
  description : String
  receiptUrl : String
deriving DecidableEq, Repr

/-- `validateForm` from ExpenseForm.tsx: valid (no error keys) iff the
title and description are not blank, the date is present, and the amount
parses to a number strictly greater than zero
(`!amount || isNaN(Number(amount)) || Number(amount) <= 0`). -/
def validateForm (f : FormState) : Bool :=
  !isBlank f.title &&
    (match f.amount with
     | none => false
     | some q => decide (0 < q)) &&
    !(f.date == "") &&
    !isBlank f.description

/-- The `expenseData` literal built in `ExpenseForm.handleSubmit` for
`createExpense`: the form fields plus `status: 'draft'`; no reviewer
field is in the literal.  `f.amount.getD 0` is only a type-level default:
every caller is guarded by `validateForm`, which forces `f.amount` to be
`some` of a positive rational. -/
def formData (f : FormState) : ExpenseData where
  title := f.title
  amount := f.amount.getD 0
  date := f.date
  category := f.category
  description := f.description
  status := ExpenseStatus.draft
  receiptUrl := some f.receiptUrl
  reviewedBy := none
  reviewedByName := none
  reviewedAt := none
  comments := none

/-- The same `expenseData` literal as an update payload for the edit
branch of `ExpenseForm.handleSubmit`: title, amount, date, category,
description, receiptUrl — and always `status: 'draft'`. -/
def formPatch (f : FormState) : ExpensePatch where
  title := some f.title
  amount := some (f.amount.getD 0)
  date := some f.date
  category := some f.category
  description := some f.description
  status := some ExpenseStatus.draft
  receiptUrl := some (some f.receiptUrl)

/-- `handleSubmit` from ExpenseForm.tsx (the save path): returns `none`
when `validateForm` fails (no service call at all); otherwise updates
(edit mode, `editId = some id`) or creates (`editId = none`) with the form
payload, and when the user chose "save and submit" (`submitAsDraft =
false`) additionally calls `submitExpense` on the saved record.  The
result is the final stored collection. -/
def formHandleSubmit (user : Option User) (newId now : String)
    (allExpenses : List Expense) (f : FormState) (editId : Option String)
    (submitAsDraft : Bool) : Option (Except AppError (List Expense)) :=
  if validateForm f then
    some
      (match
        (match editId with
         | some id => updateExpense allExpenses id (formPatch f)
         | none => createExpense user (formData f) newId now allExpenses) with
       | Except.error err => Except.error err
       | Except.ok (saved, store) =>
           if submitAsDraft then Except.ok store
           else (submitExpense store saved.id).map Prod.snd)
  else none

/-! ## Report aggregates (src/src/pages/reports/ReportPage.tsx) -/

/-- `totalAmount` from ReportPage.tsx:
`filteredExpenses.reduce((sum, expense) => sum + expense.amount, 0)`. -/
def totalAmount (expenses : List Expense) : ℚ :=
  expenses.foldl (fun sum e => sum + e.amount) 0

/-- `expensesByCategory` from ReportPage.tsx: the reduce
`acc[expense.category] = (acc[expense.category] || 0) + expense.amount`,
embedded as a total function from categories to amounts, a missing key
reading as `0`. -/
def expensesByCategory (expenses : List Expense) : ExpenseCategory → ℚ :=
  expenses.foldl
    (fun acc e c => if c = e.category then acc c + e.amount else acc c)
    (fun _ => 0)

/-- The six expense categories (the controlled vocabulary of
src/unnamed/part_002). -/
def allCategories : List ExpenseCategory :=
  [ExpenseCategory.travel, ExpenseCategory.meals, ExpenseCategory.accommodation,
   ExpenseCategory.equipment, ExpenseCategory.office, ExpenseCategory.other]

/-! ## Fixtures: the mock principals and seed expenses shipped in
AuthContext.tsx and src/unnamed/part_002, used as concrete instances. -/

/-- Mock user id 1 from `INITIAL_MOCK_USERS`. -/
def johnEmployee : User where
  id := "1"
  name := "John Employee"
  email := "employee@example.com"
  role := UserRole.employee

/-- Mock user id 2 from `INITIAL_MOCK_USERS`. -/
def sarahManager : User where
  id := "2"
  name := "Sarah Manager"
  email := "manager@example.com"
  role := UserRole.manager

/-- Seed expense id 1 from `INITIAL_EXPENSES` (status `approved`). -/
def businessTrip : Expense where
  id := "1"
  title := "Business Trip to New York"
  amount := 1250.75
  date := "2023-10-15"
  category := ExpenseCategory.travel
  description := "Flight and taxi expenses for the quarterly meeting"
  status := ExpenseStatus.approved
  receiptUrl := some "https://example.com/receipt1.pdf"
  submittedBy := "1"
  submittedByName := "John Employee"
  submittedAt := "2023-10-16T10:30:00Z"
  reviewedBy := some "2"
  reviewedByName := some "Sarah Manager"
  reviewedAt := some "2023-10-17T14:20:00Z"
  comments := none

/-- Seed expense id 2 from `INITIAL_EXPENSES` (status `submitted`). -/
def teamLunch : Expense where
  id := "2"
  title := "Team Lunch"
  amount := 187.50
  date := "2023-10-20"
  category := ExpenseCategory.meals
  description := "Team lunch after project completion"
  status := ExpenseStatus.submitted
  receiptUrl := none
  submittedBy := "1"
  submittedByName := "John Employee"
  submittedAt := "2023-10-21T09:15:00Z"
  reviewedBy := none
  reviewedByName := none
  reviewedAt := none
  comments := none

/-- Seed expense id 3 from `INITIAL_EXPENSES` (status `rejected`). -/
def newLaptop : Expense where
  id := "3"
  title := "New Laptop"
  amount := 1899.99
  date := "2023-10-22"
  category := ExpenseCategory.equipment
  description := "Replacement laptop for development team"
  status := ExpenseStatus.rejected
  receiptUrl := some "https://example.com/receipt3.pdf"
  submittedBy := "1"
  submittedByName := "John Employee"
  submittedAt := "2023-10-23T11:45:00Z"
  reviewedBy := some "2"
  reviewedByName := some "Sarah Manager"
  reviewedAt := some "2023-10-24T16:30:00Z"
  comments := some "Please use the standard equipment request process instead"

/-- `INITIAL_EXPENSES` from src/unnamed/part_002. -/
def initialExpenses : List Expense := [businessTrip, teamLunch, newLaptop]

/-! ## Helper lemmas -/

/-- A successful `find?` locates a first matching index whose entry is the
found element. -/
lemma find?_to_findIdx (q : Expense → Bool) :
    ∀ (l : List Expense) (e : Expense), l.find? q = some e →
      ∃ i, l.findIdx? q = some i ∧ l.getD i default = e := by
  intro l
  induction l with
  | nil => intro e h; simp at h
  | cons a t ih =>
      intro e h
      by_cases hq : q a
      · refine ⟨0, ?_, ?_⟩
        · simp [List.findIdx?_cons, hq]
        · rw [List.find?_cons_of_pos _ hq] at h
          simpa using Option.some.inj h
      · rw [List.find?_cons_of_neg _ hq] at h
        obtain ⟨i, hi, hg⟩ := ih e h
        refine ⟨i + 1, ?_, ?_⟩
        · simp [List.findIdx?_cons, hq, List.findIdx?_succ, hi]
        · simpa using hg

/-- `updateExpense` on a stored record replaces it in place with the
spread-merge of the payload over it. -/
lemma updateExpense_of_get (all : List Expense) (id : String) (pt : ExpensePatch)
    (e : Expense) (h : getExpenseById all id = some e) :
    ∃ i, updateExpense all id pt =
        Except.ok (applyPatch e pt, all.set i (applyPatch e pt)) := by
  obtain ⟨i, hi, hg⟩ := find?_to_findIdx (fun x => x.id == id) all e h
  refine ⟨i, ?_⟩
  unfold updateExpense
  rw [hi]
  simp only [List.getD_eq_getElem?_getD] at hg
  simp [hg]

/-- Inversion for a successful `updateExpense`: the returned record is the
patched version of a stored record, and the new store differs from the old
one only by that record. -/
lemma updateExpense_ok_inv (all : List Expense) (id : String) (pt : ExpensePatch)
    (upd : Expense) (store : List Expense)
    (h : updateExpense all id pt = Except.ok (upd, store)) :
    (∃ old ∈ all, upd = applyPatch old pt) ∧ ∀ x ∈ store, x ∈ all ∨ x = upd := by
  unfold updateExpense at h
  cases hidx : all.findIdx? (fun x => x.id == id) with
  | none => rw [hidx] at h; exact absurd h (by simp)
  | some i =>
      rw [hidx] at h
      simp only [Except.ok.injEq, Prod.mk.injEq] at h
      obtain ⟨hupd, hstore⟩ := h
      have hlt : i < all.length :=
        (List.findIdx?_eq_some_iff_getElem.mp hidx).1
      have hmem : all.getD i default ∈ all := by
        rw [List.getD_eq_getElem?_getD, List.getElem?_eq_getElem hlt]
        simp
      refine ⟨⟨all.getD i default, hmem, hupd.symm⟩, ?_⟩
      intro x hx
      rw [← hstore, hupd] at hx
      exact List.mem_or_eq_of_mem_set hx

/-- Amount preservation through `updateExpense`: if every amount carried by
the payload is positive and every stored amount is positive, every amount
in the updated store is positive. -/
lemma updateExpense_amount_pos (all : List Expense) (id : String)
    (pt : ExpensePatch) (upd : Expense) (store : List Expense)
    (hpt : ∀ a, pt.amount = some a → 0 < a)
    (hall : ∀ x ∈ all, 0 < x.amount)
    (h : updateExpense all id pt = Except.ok (upd, store)) :
    ∀ x ∈ store, 0 < x.amount := by
  obtain ⟨⟨old, hold, hupd⟩, hmem⟩ := updateExpense_ok_inv all id pt upd store h
  have hupd_pos : 0 < upd.amount := by
    rw [hupd]
    cases ha : pt.amount with
    | none => simpa [applyPatch, ha] using hall old hold
    | some a => simpa [applyPatch, ha] using hpt a ha
  intro x hx
  rcases hmem x hx with hin | rfl
  · exact hall x hin
  · exact hupd_pos

/-- Everything visible is stored: `loadExpenses` only ever filters. -/
lemma loadExpenses_subset (user : Option User) (allExpenses : List Expense) :
    ∀ x ∈ loadExpenses user allExpenses, x ∈ allExpenses := by
  intro x hx
  cases user with
  | none => exact hx
  | some u =>
      by_cases hr : u.role = UserRole.employee
      · simp only [loadExpenses, hr, if_true] at hx
        exact List.mem_of_mem_filter hx
      · simp only [loadExpenses, if_neg hr] at hx
        exact hx

/-- Folding one expense into the per-category accumulator adds its amount
to the total over all categories: each expense has exactly one category,
which occurs exactly once in `allCategories`. -/
lemma byCategory_single_step (acc : ExpenseCategory → ℚ) (e : Expense) :
    (allCategories.map
        (fun c => if c = e.category then acc c + e.amount else acc c)).sum
      = (allCategories.map acc).sum + e.amount := by
  cases he : e.category <;> simp [allCategories, he] <;> ring

/-- The per-category reduce, started from any accumulator, adds the sum of
the amounts of the list to the accumulator totals. -/
lemma byCategory_foldl (es : List Expense) :
    ∀ acc : ExpenseCategory → ℚ,
      (allCategories.map (es.foldl
          (fun a e c => if c = e.category then a c + e.amount else a c) acc)).sum
        = (allCategories.map acc).sum + (es.map (fun e => e.amount)).sum := by
  induction es with
  | nil => intro acc; simp
  | cons e t ih =>
      intro acc
      rw [List.foldl_cons, ih, byCategory_single_step]
      simp only [List.map_cons, List.sum_cons]
      ring

/-- The total-amount reduce, started from any accumulator. -/
lemma totalAmount_foldl (es : List Expense) :
    ∀ s : ℚ, es.foldl (fun sum e => sum + e.amount) s
      = s + (es.map (fun e => e.amount)).sum := by
  induction es with
  | nil => intro s; simp
  | cons e t ih =>
      intro s
      rw [List.foldl_cons, ih]
      simp only [List.map_cons, List.sum_cons]
      ring

/-- `totalAmount` is the sum of the amounts. -/
lemma totalAmount_eq_sum (es : List Expense) :
    totalAmount es = (es.map (fun e => e.amount)).sum := by
  rw [totalAmount, totalAmount_foldl]
  ring

/-! ## Claims -/

/-- C9: for every visible expense set — the result of any filter
combination applied to any collection — the sum over all categories of the
per-category derived totals (`expensesByCategory` of ReportPage.tsx)
equals the total amount (`totalAmount`) of that set. -/
theorem c9_theorem (expenses : List Expense) (flt : Expense → Bool) :
    (allCategories.map (expensesByCategory (expenses.filter flt))).sum
      = totalAmount (expenses.filter flt) := by
  rw [expensesByCategory, byCategory_foldl, totalAmount_eq_sum]
  simp

/-- C1 counterexample: the claim says approving an expense whose status is
not `submitted` fails with `InvalidState` and leaves the status unchanged.
In the code, `approveExpense` performs no status check: approving seed
expense 3, whose status is `rejected`, succeeds and moves it to
`approved`, restamping the reviewer fields and clearing the stored
comment. -/
theorem c1_counterexample :
    approveExpense (some sarahManager) "2023-11-01T00:00:00Z" [newLaptop] "3" none =
      Except.ok
        ({ newLaptop with
            status := ExpenseStatus.approved
            reviewedBy := some "2"
            reviewedByName := some "Sarah Manager"
            reviewedAt := some "2023-11-01T00:00:00Z"
            comments := none },
          [{ newLaptop with
              status := ExpenseStatus.approved
              reviewedBy := some "2"
              reviewedByName := some "Sarah Manager"
              reviewedAt := some "2023-11-01T00:00:00Z"
              comments := none }]) := by rfl

/-- C1 (amended): the only approve/reject entry points of the application
are the review actions of the detail page, and those are offered only
when `canReview` holds, which requires status `submitted`; for an expense
in status `draft`, `approved` or `rejected` neither action is available
(`none`), so no state change happens through the page.  The service-level
`approveExpense`/`rejectExpense` themselves check nothing and succeed from
any status (see the counterexample). -/
theorem c1_theorem (user : Option User) (now : String)
    (allExpenses : List Expense) (e : Expense) (comments : String)
    (h : e.status ≠ ExpenseStatus.submitted) :
    detailApprove user now allExpenses e comments = none ∧
      detailReject user now allExpenses e comments = none := by
  have hb : (e.status == ExpenseStatus.submitted) = false := by simp [h]
  have hc : canReview user (some e) = false := by
    cases user with
    | none => rfl
    | some u => simp [canReview, hb]
  exact ⟨by simp [detailApprove, hc], by simp [detailReject, hc]⟩

/-- C1 witness: a manager viewing rejected seed expense 3 is offered
neither approve nor reject. -/
theorem c1_witness :
    detailApprove (some sarahManager) "T" initialExpenses newLaptop "" = none ∧
      detailReject (some sarahManager) "T" initialExpenses newLaptop "" = none :=
  c1_theorem (some sarahManager) "T" initialExpenses newLaptop "" (by decide)

/-- C2 counterexample: the claim says a mutation by a principal who is not
the allowed actor fails with `Forbidden` and no state change occurs
through any entry point.  In the code, the service checks no actor at all:
`approveExpense` called with the employee session (role `employee`, not a
reviewer) on seed expense 2 succeeds and approves it. -/
theorem c2_counterexample :
    approveExpense (some johnEmployee) "2023-11-01T00:00:00Z" [teamLunch] "2" none =
      Except.ok
        ({ teamLunch with
            status := ExpenseStatus.approved
            reviewedBy := some "1"
            reviewedByName := some "John Employee"
            reviewedAt := some "2023-11-01T00:00:00Z" },
          [{ teamLunch with
              status := ExpenseStatus.approved
              reviewedBy := some "1"
              reviewedByName := some "John Employee"
              reviewedAt := some "2023-11-01T00:00:00Z" }]) := by rfl

/-- C2 (amended): the actor gating lives only in the detail page: a
principal whose id differs from `submittedBy` is offered neither submit
nor delete (and no edit link), and a principal with role `employee` is
offered neither approve nor reject — those page actions are `none`, so no
state change is possible through them.  The service operations themselves
perform no actor check and mutate for any authenticated caller (see the
counterexample). -/
theorem c2_theorem (u : User) (now : String) (allExpenses : List Expense)
    (e : Expense) (comments : String) :
    (e.submittedBy ≠ u.id →
      detailSubmit (some u) allExpenses e = none ∧
        detailDelete (some u) allExpenses e = none ∧
        canEdit (some u) (some e) = false) ∧
    (u.role = UserRole.employee →
      detailApprove (some u) now allExpenses e comments = none ∧
        detailReject (some u) now allExpenses e comments = none) := by
  constructor
  · intro h
    have hb : (e.submittedBy == u.id) = false := by simp [h]
    exact ⟨by simp [detailSubmit, canSubmit, hb],
      by simp [detailDelete, canDelete, hb],
      by simp [canEdit, hb]⟩
  · intro h
    have hc : checkRole (some u) [UserRole.manager, UserRole.admin] = false := by
      simp [checkRole, h]
    have hr : canReview (some u) (some e) = false := by
      simp [canReview, hc]
    exact ⟨by simp [detailApprove, hr], by simp [detailReject, hr]⟩

/-- C2 witness: the manager (not the submitter of seed expense 2) gets no
submit/delete/edit action on it; the employee gets no approve/reject. -/
theorem c2_witness :
    (detailSubmit (some sarahManager) initialExpenses teamLunch = none ∧
      detailDelete (some sarahManager) initialExpenses teamLunch = none ∧
      canEdit (some sarahManager) (some teamLunch) = false) ∧
    (detailApprove (some johnEmployee) "T" initialExpenses teamLunch "" = none ∧
      detailReject (some johnEmployee) "T" initialExpenses teamLunch "" = none) :=
  ⟨(c2_theorem sarahManager "T" initialExpenses teamLunch "").1 (by decide),
   (c2_theorem johnEmployee "T" initialExpenses teamLunch "").2 rfl⟩

/-- C3 counterexample: the claim says rejecting a submitted expense with an
empty comment string fails with `ValidationFailed` and leaves it
unchanged.  In the code, the service `rejectExpense` never inspects the
comment: rejecting seed expense 2 (status `submitted`) with `""` succeeds,
sets status `rejected` and stores the empty comment. -/
theorem c3_counterexample :
    rejectExpense (some sarahManager) "2023-11-01T00:00:00Z" [teamLunch] "2" "" =
      Except.ok
        ({ teamLunch with
            status := ExpenseStatus.rejected
            reviewedBy := some "2"
            reviewedByName := some "Sarah Manager"
            reviewedAt := some "2023-11-01T00:00:00Z"
            comments := some "" },
          [{ teamLunch with
              status := ExpenseStatus.rejected
              reviewedBy := some "2"
              reviewedByName := some "Sarah Manager"
              reviewedAt := some "2023-11-01T00:00:00Z"
              comments := some "" }]) := by rfl

/-- C3 (amended): the empty-comment refusal lives in the detail-page
handler, not the service: `handleReject` on an empty or whitespace-only
comment returns the rejection-reason error without touching the store,
and on a non-empty comment delegates to `rejectExpense`, which on any
stored expense (in particular one in status `submitted`) succeeds, sets
status `rejected` and stamps `reviewedBy`, `reviewedByName`, `reviewedAt`
and `comments`.  The service `rejectExpense` itself performs no comment
validation (see the counterexample). -/
theorem c3_theorem (u : User) (now : String) (allExpenses : List Expense)
    (id : String) (comments : String) (e : Expense) :
    (isBlank comments = true →
      handleReject (some u) now allExpenses id comments =
        Except.error AppError.rejectionReasonRequired) ∧
    (isBlank comments = false → getExpenseById allExpenses id = some e →
      (handleReject (some u) now allExpenses id comments).map Prod.fst =
        Except.ok
          { e with
              status := ExpenseStatus.rejected
              reviewedBy := some u.id
              reviewedByName := some u.name
              reviewedAt := some now
              comments := some comments }) := by
  constructor
  · intro hb
    simp [handleReject, hb]
  · intro hb hfind
    obtain ⟨i, hupd⟩ := updateExpense_of_get allExpenses id
      { status := some ExpenseStatus.rejected
        reviewedBy := some (some u.id)
        reviewedByName := some (some u.name)
        reviewedAt := some (some now)
        comments := some (some comments) } e hfind
    simp [handleReject, hb, rejectExpense, hupd, applyPatch, Except.map]

/-- C3 witness: on seed expense 2 (status `submitted`), a whitespace-only
comment is refused, and a real comment rejects and stamps the reviewer
fields. -/
theorem c3_witness :
    handleReject (some sarahManager) "T" [teamLunch] "2" " " =
      Except.error AppError.rejectionReasonRequired ∧
    (handleReject (some sarahManager) "T" [teamLunch] "2"
        "Use per-diem instead").map Prod.fst =
      Except.ok
        { teamLunch with
            status := ExpenseStatus.rejected
            reviewedBy := some "2"
            reviewedByName := some "Sarah Manager"
            reviewedAt := some "T"
            comments := some "Use per-diem instead" } :=
  ⟨(c3_theorem sarahManager "T" [teamLunch] "2" " " teamLunch).1 (by decide),
   (c3_theorem sarahManager "T" [teamLunch] "2" "Use per-diem instead" teamLunch).2
     (by decide) rfl⟩

/-- C4: role-based visibility of `loadExpenses`: an employee sees exactly
the stored expenses whose `submittedBy` is their own id — never a record
of another submitter — while a manager or admin sees the stored collection
unfiltered. -/
theorem c4_theorem (u : User) (allExpenses : List Expense) :
    (u.role = UserRole.employee →
      ∀ e, e ∈ loadExpenses (some u) allExpenses ↔
        e ∈ allExpenses ∧ e.submittedBy = u.id) ∧
    ((u.role = UserRole.manager ∨ u.role = UserRole.admin) →
      loadExpenses (some u) allExpenses = allExpenses) := by
  constructor
  · intro h e
    simp [loadExpenses, h, List.mem_filter]
  · intro h
    have hne : u.role ≠ UserRole.employee := by
      rcases h with h | h <;> simp [h]
    simp [loadExpenses, hne]

/-- C4 witness: over the seed data, the employee session sees its own
seed expense 2 (and a membership characterization), and the manager
session sees the full collection. -/
theorem c4_witness :
    (teamLunch ∈ loadExpenses (some johnEmployee) initialExpenses ↔
      teamLunch ∈ initialExpenses ∧ teamLunch.submittedBy = johnEmployee.id) ∧
    loadExpenses (some sarahManager) initialExpenses = initialExpenses :=
  ⟨(c4_theorem johnEmployee initialExpenses).1 rfl teamLunch,
   (c4_theorem sarahManager initialExpenses).2 (Or.inl rfl)⟩

/-- Saving through the form (either branch of the save step) preserves
positivity of all stored amounts, because `validateForm` has already
forced the form amount to be positive. -/
lemma formSave_amount_pos (user : Option User) (newId now : String)
    (allExpenses : List Expense) (f : FormState) (editId : Option String)
    (q : ℚ) (hq : f.amount = some q) (hqpos : 0 < q)
    (hall : ∀ x ∈ allExpenses, 0 < x.amount)
    (saved : Expense) (st : List Expense)
    (hsv : (match editId with
            | some id => updateExpense allExpenses id (formPatch f)
            | none => createExpense user (formData f) newId now allExpenses) =
          Except.ok (saved, st)) :
    ∀ x ∈ st, 0 < x.amount := by
  cases editId with
  | some id =>
      refine updateExpense_amount_pos allExpenses id (formPatch f) saved st ?_ hall hsv
      intro a hha
      simp only [formPatch, hq, Option.getD_some, Option.some.injEq] at hha
      rw [← hha]
      exact hqpos
  | none =>
      cases user with
      | none => simp [createExpense] at hsv
      | some uu =>
          simp only [createExpense, Except.ok.injEq, Prod.mk.injEq] at hsv
          obtain ⟨hsaved, hst⟩ := hsv
          intro x hx
          rw [← hst] at hx
          rcases List.mem_append.mp hx with h1 | h2
          · exact hall x h1
          · have hxeq : x.amount = (formData f).amount := by
              rw [List.mem_singleton.mp h2]
            rw [hxeq]
            simp only [formData, hq, Option.getD_some]
            exact hqpos

/-- C5 counterexample: the claim says creating with `amount <= 0` is
rejected with `ValidationFailed` before any mutation.  In the code, the
service `createExpense` performs no amount validation: creating with
amount `-5` succeeds and the stored collection then contains a
non-positive amount. -/
theorem c5_counterexample :
    (createExpense (some johnEmployee)
        { title := "Negative amount"
          amount := -5
          date := "2023-11-01"
          category := ExpenseCategory.other
          description := "not validated by the service"
          status := ExpenseStatus.draft
          receiptUrl := none
          reviewedBy := none
          reviewedByName := none
          reviewedAt := none
          comments := none }
        "9" "2023-11-01T00:00:00Z" []).map (fun r => r.2.map (fun e => e.amount)) =
      Except.ok [-5] := by rfl

/-- C5 (amended): the amount validation lives only in the expense form:
`validateForm` refuses a non-positive (or unparsable) amount before any
service call (`formHandleSubmit` is `none`, so no mutation is attempted),
and any successful submission through the form — create or edit, with or
without the follow-up submit — keeps every stored amount positive.  The
service `createExpense`/`updateExpense` themselves accept any amount (see
the counterexample). -/
theorem c5_theorem (user : Option User) (newId now : String)
    (allExpenses : List Expense) (f : FormState) (editId : Option String)
    (submitAsDraft : Bool) :
    ((∀ q, f.amount = some q → q ≤ 0) →
      formHandleSubmit user newId now allExpenses f editId submitAsDraft = none) ∧
    (∀ store, (∀ e ∈ allExpenses, 0 < e.amount) →
      formHandleSubmit user newId now allExpenses f editId submitAsDraft =
        some (Except.ok store) →
      ∀ e ∈ store, 0 < e.amount) := by
  constructor
  · intro h
    have hv : validateForm f = false := by
      unfold validateForm
      cases ha : f.amount with
      | none => simp
      | some q =>
          have hq : ¬ (0 < q) := not_lt.mpr (h q ha)
          simp [hq]
    simp [formHandleSubmit, hv]
  · intro store hall hsome
    by_cases hv : validateForm f = true
    · obtain ⟨q, hq, hqpos⟩ : ∃ q, f.amount = some q ∧ 0 < q := by
        unfold validateForm at hv
        cases ha : f.amount with
        | none => rw [ha] at hv; simp at hv
        | some q =>
            rw [ha] at hv
            simp only [Bool.and_eq_true, decide_eq_true_eq] at hv
            exact ⟨q, rfl, hv.1.1.2⟩
      simp only [formHandleSubmit, hv, if_true, Option.some.injEq] at hsome
      cases hsv : (match editId with
                   | some id => updateExpense allExpenses id (formPatch f)
                   | none => createExpense user (formData f) newId now allExpenses) with
      | error err => rw [hsv] at hsome; simp at hsome
      | ok pr =>
          obtain ⟨saved, st⟩ := pr
          have hst : ∀ x ∈ st, 0 < x.amount :=
            formSave_amount_pos user newId now allExpenses f editId q hq hqpos hall
              saved st hsv
          rw [hsv] at hsome
          by_cases hd : submitAsDraft = true
          · rw [hd] at hsome
            simp only [if_true] at hsome
            rw [← Except.ok.inj hsome]
            exact hst
          · have hd' : submitAsDraft = false := by
              cases submitAsDraft
              · rfl
              · exact absurd rfl hd
            rw [hd'] at hsome
            simp only [Bool.false_eq_true, if_false] at hsome
            cases hsub : submitExpense st saved.id with
            | error err => rw [hsub] at hsome; simp [Except.map] at hsome
            | ok pr2 =>
                obtain ⟨e2, store2⟩ := pr2
                rw [hsub] at hsome
                simp only [Except.map, Except.ok.injEq] at hsome
                rw [← hsome]
                refine updateExpense_amount_pos st saved.id _ e2 store2 ?_ hst hsub
                intro a ha
                simp at ha
    · have hv' : validateForm f = false := by
        cases hvv : validateForm f
        · rfl
        · exact absurd hvv hv
      simp [formHandleSubmit, hv'] at hsome

/-- C5 witness: a form with amount `-5` produces no service call, and the
record created by a successful form submission has a positive amount. -/
theorem c5_witness :
    formHandleSubmit (some johnEmployee) "9" "T" []
        { title := "Hotel"
          amount := some (-5)
          date := "2023-11-01"
          category := ExpenseCategory.accommodation
          description := "One night"
          receiptUrl := "" } none true = none ∧
    0 < ({ id := "9"
           title := "Hotel"
           amount := 100
           date := "2023-11-01"
           category := ExpenseCategory.accommodation
           description := "One night"
           status := ExpenseStatus.draft
           receiptUrl := some ""
           submittedBy := "1"
           submittedByName := "John Employee"
           submittedAt := "T"
           reviewedBy := none
           reviewedByName := none
           reviewedAt := none
           comments := none } : Expense).amount :=
  ⟨(c5_theorem (some johnEmployee) "9" "T" []
      { title := "Hotel", amount := some (-5), date := "2023-11-01",
        category := ExpenseCategory.accommodation, description := "One night",
        receiptUrl := "" } none true).1
      (fun q hq => by
        rw [← Option.some.inj hq]
        norm_num),
   (c5_theorem (some johnEmployee) "9" "T" []
      { title := "Hotel", amount := some 100, date := "2023-11-01",
        category := ExpenseCategory.accommodation, description := "One night",
        receiptUrl := "" } none true).2
      [{ id := "9", title := "Hotel", amount := 100, date := "2023-11-01",
         category := ExpenseCategory.accommodation, description := "One night",
         status := ExpenseStatus.draft, receiptUrl := some "", submittedBy := "1",
         submittedByName := "John Employee", submittedAt := "T", reviewedBy := none,
         reviewedByName := none, reviewedAt := none, comments := none }]
      (by simp) rfl
      { id := "9", title := "Hotel", amount := 100, date := "2023-11-01",
        category := ExpenseCategory.accommodation, description := "One night",
        status := ExpenseStatus.draft, receiptUrl := some "", submittedBy := "1",
        submittedByName := "John Employee", submittedAt := "T", reviewedBy := none,
        reviewedByName := none, reviewedAt := none, comments := none }
      (List.mem_singleton.mpr rfl)⟩

/-- C6 counterexample: the claim says deleting a `submitted` expense fails
with `InvalidState` and the expense stays in the collection.  In the code,
`deleteExpense` checks nothing: deleting seed expense 2 (status
`submitted`) silently removes it. -/
theorem c6_counterexample : deleteExpense [teamLunch] "2" = [] := by rfl

/-- C6 (amended): the status gating of deletion lives only in the detail
page: `canDelete` requires status `draft` (and ownership), so for a
`submitted`, `approved` or `rejected` expense the page offers no delete
action (`none`).  The service `deleteExpense` itself removes the record
regardless of status (see the counterexample), and after any deletion a
reload plus `getExpenseById` on that id yields `none`. -/
theorem c6_theorem (u : User) (allExpenses : List Expense) (e : Expense)
    (id : String) :
    (e.status ≠ ExpenseStatus.draft → detailDelete (some u) allExpenses e = none) ∧
    getExpenseById (loadExpenses (some u) (deleteExpense allExpenses id)) id = none := by
  constructor
  · intro h
    have hb : (e.status == ExpenseStatus.draft) = false := by simp [h]
    simp [detailDelete, canDelete, hb]
  · rw [getExpenseById, List.find?_eq_none]
    intro x hx
    have hx2 : x ∈ deleteExpense allExpenses id :=
      loadExpenses_subset (some u) (deleteExpense allExpenses id) x hx
    simp only [deleteExpense] at hx2
    have hne := List.of_mem_filter hx2
    simp only [bne_iff_ne, ne_eq] at hne
    simp [hne]

/-- C6 witness: the manager viewing submitted seed expense 2 is offered no
delete action, and after deleting id 2 a lookup of id 2 in the reloaded
view yields `none`. -/
theorem c6_witness :
    detailDelete (some sarahManager) initialExpenses teamLunch = none ∧
    getExpenseById (loadExpenses (some sarahManager)
      (deleteExpense initialExpenses "2")) "2" = none :=
  ⟨(c6_theorem sarahManager initialExpenses teamLunch "2").1 (by decide),
   (c6_theorem sarahManager initialExpenses teamLunch "2").2⟩

/-- C7: resubmitting a rejected expense (`submitExpense`, whose payload is
only `{ status: 'submitted' }`) returns the stored record with status set
to `submitted` and every other field — in particular `reviewedBy`,
`reviewedByName`, `reviewedAt` and `comments` — unchanged as history. -/
theorem c7_theorem (allExpenses : List Expense) (id : String) (e : Expense)
    (hfind : getExpenseById allExpenses id = some e)
    (_hstatus : e.status = ExpenseStatus.rejected) :
    (submitExpense allExpenses id).map Prod.fst =
      Except.ok { e with status := ExpenseStatus.submitted } := by
  obtain ⟨i, hupd⟩ := updateExpense_of_get allExpenses id
    { status := some ExpenseStatus.submitted } e hfind
  simp [submitExpense, hupd, applyPatch, Except.map]

/-- C7 witness: resubmitting rejected seed expense 3 yields the same
record with status `submitted` and the 2023-10-24 review trail intact. -/
theorem c7_witness :
    (submitExpense [newLaptop] "3").map Prod.fst =
      Except.ok { newLaptop with status := ExpenseStatus.submitted } :=
  c7_theorem [newLaptop] "3" newLaptop rfl rfl

/-- C8 counterexample: the claim says an owner edit of a `rejected`
expense leaves the status `rejected`.  In the code, the form payload of
`ExpenseForm.handleSubmit` always contains `status: 'draft'`, so saving an
edit of rejected seed expense 3 moves it to `draft`. -/
theorem c8_counterexample :
    formHandleSubmit (some johnEmployee) "99" "T" [newLaptop]
        { title := "New Laptop"
          amount := some 1900
          date := "2023-10-22"
          category := ExpenseCategory.equipment
          description := "Replacement laptop for development team"
          receiptUrl := "https://example.com/receipt3.pdf" }
        (some "3") true =
      some (Except.ok
        [{ newLaptop with amount := 1900, status := ExpenseStatus.draft }]) := by rfl

/-- C8 (amended): an edit through the expense form overwrites exactly the
supplied content fields (title, amount, date, category, description,
receipt reference) and additionally always resets status to `draft`,
because the form payload carries `status: 'draft'`; the submitter stamps,
the id and the reviewer-history fields are untouched.  Editing a
`rejected` expense therefore leaves it in `draft`, not `rejected` (see
the counterexample). -/
theorem c8_theorem (allExpenses : List Expense) (id : String) (e : Expense)
    (f : FormState) (hfind : getExpenseById allExpenses id = some e) :
    (updateExpense allExpenses id (formPatch f)).map Prod.fst =
      Except.ok
        { e with
            title := f.title
            amount := f.amount.getD 0
            date := f.date
            category := f.category
            description := f.description
            receiptUrl := some f.receiptUrl
            status := ExpenseStatus.draft } := by
  obtain ⟨i, hupd⟩ := updateExpense_of_get allExpenses id (formPatch f) e hfind
  rw [hupd]
  simp [formPatch, applyPatch, Except.map]

/-- C8 witness: the form edit of rejected seed expense 3 returns it with
the form content, status `draft`, and the review trail untouched. -/
theorem c8_witness :
    (updateExpense [newLaptop] "3"
        (formPatch
          { title := "New Laptop"
            amount := some 1900
            date := "2023-10-22"
            category := ExpenseCategory.equipment
            description := "Replacement laptop for development team"
            receiptUrl := "https://example.com/receipt3.pdf" })).map Prod.fst =
      Except.ok
        { newLaptop with
            title := "New Laptop"
            amount := (some (1900 : ℚ)).getD 0
            date := "2023-10-22"
            category := ExpenseCategory.equipment
            description := "Replacement laptop for development team"
            receiptUrl := some "https://example.com/receipt3.pdf"
            status := ExpenseStatus.draft } :=
  c8_theorem [newLaptop] "3" newLaptop
    { title := "New Laptop", amount := some 1900, date := "2023-10-22",
      category := ExpenseCategory.equipment,
      description := "Replacement laptop for development team",
      receiptUrl := "https://example.com/receipt3.pdf" } rfl

/-- C10: whatever the caller passes as creation data — including a status
of `submitted`, `approved` or `rejected` and any reviewer fields, all of
which the `Omit` type still admits — the record actually created has
status `draft`, and `submittedBy`, `submittedByName`, `submittedAt` and
the id are stamped from the acting session principal and the call
context; the new record is appended to the stored collection. -/
theorem c10_theorem (u : User) (data : ExpenseData) (newId now : String)
    (allExpenses : List Expense) (e : Expense) (store : List Expense)
    (h : createExpense (some u) data newId now allExpenses = Except.ok (e, store)) :
    e.status = ExpenseStatus.draft ∧ e.submittedBy = u.id ∧
      e.submittedByName = u.name ∧ e.submittedAt = now ∧ e.id = newId ∧
      store = allExpenses ++ [e] := by
  simp only [createExpense, Except.ok.injEq, Prod.mk.injEq] at h
  obtain ⟨he, hstore⟩ := h
  subst he
  subst hstore
  simp

/-- C10 witness: creating with caller-supplied status `approved` and a
forged reviewer trail still yields a `draft` record stamped from the
session principal. -/
theorem c10_witness :
    ({ id := "9", title := "Sneaky", amount := 10, date := "2023-11-01",
       category := ExpenseCategory.other, description := "tries to pre-approve",
       status := ExpenseStatus.draft, receiptUrl := none, submittedBy := "1",
       submittedByName := "John Employee", submittedAt := "T",
       reviewedBy := some "1", reviewedByName := some "John Employee",
       reviewedAt := some "T", comments := none } : Expense).status =
        ExpenseStatus.draft ∧
      ({ id := "9", title := "Sneaky", amount := 10, date := "2023-11-01",
         category := ExpenseCategory.other, description := "tries to pre-approve",
         status := ExpenseStatus.draft, receiptUrl := none, submittedBy := "1",
         submittedByName := "John Employee", submittedAt := "T",
         reviewedBy := some "1", reviewedByName := some "John Employee",
         reviewedAt := some "T", comments := none } : Expense).submittedBy =
        johnEmployee.id ∧
      ({ id := "9", title := "Sneaky", amount := 10, date := "2023-11-01",
         category := ExpenseCategory.other, description := "tries to pre-approve",
         status := ExpenseStatus.draft, receiptUrl := none, submittedBy := "1",
         submittedByName := "John Employee", submittedAt := "T",
         reviewedBy := some "1", reviewedByName := some "John Employee",
         reviewedAt := some "T", comments := none } : Expense).submittedByName =
        johnEmployee.name ∧
      ({ id := "9", title := "Sneaky", amount := 10, date := "2023-11-01",
         category := ExpenseCategory.other, description := "tries to pre-approve",
         status := ExpenseStatus.draft, receiptUrl := none, submittedBy := "1",
         submittedByName := "John Employee", submittedAt := "T",
         reviewedBy := some "1", reviewedByName := some "John Employee",
         reviewedAt := some "T", comments := none } : Expense).submittedAt = "T" ∧
      ({ id := "9", title := "Sneaky", amount := 10, date := "2023-11-01",
         category := ExpenseCategory.other, description := "tries to pre-approve",
         status := ExpenseStatus.draft, receiptUrl := none, submittedBy := "1",
         submittedByName := "John Employee", submittedAt := "T",
         reviewedBy := some "1", reviewedByName := some "John Employee",
         reviewedAt := some "T", comments := none } : Expense).id = "9" ∧
      [({ id := "9", title := "Sneaky", amount := 10, date := "2023-11-01",
          category := ExpenseCategory.other, description := "tries to pre-approve",
          status := ExpenseStatus.draft, receiptUrl := none, submittedBy := "1",
          submittedByName := "John Employee", submittedAt := "T",
          reviewedBy := some "1", reviewedByName := some "John Employee",
          reviewedAt := some "T", comments := none } : Expense)] =
        [] ++ [{ id := "9", title := "Sneaky", amount := 10, date := "2023-11-01",
                 category := ExpenseCategory.other,
                 description := "tries to pre-approve",
                 status := ExpenseStatus.draft, receiptUrl := none,
                 submittedBy := "1", submittedByName := "John Employee",
                 submittedAt := "T", reviewedBy := some "1",
                 reviewedByName := some "John Employee", reviewedAt := some "T",
                 comments := none }] :=
  c10_theorem johnEmployee
    { title := "Sneaky", amount := 10, date := "2023-11-01",
      category := ExpenseCategory.other, description := "tries to pre-approve",
      status := ExpenseStatus.approved, receiptUrl := none,
      reviewedBy := some "1", reviewedByName := some "John Employee",
      reviewedAt := some "T", comments := none }
    "9" "T" [] _ _ rfl
